import Mathlib

/-
Verification development for the typhon task-queue repository (src/qcp/tasks.py).

The Python module is shallowly embedded: every Task subclass is represented by
the instance attribute dictionary its constructor builds (`TaskDict`), the
sqlite table behind `TaskQueue` is represented by a list of rows (`Store`),
and each method becomes an explicit state-passing Lean function.  Filesystem
state is a pair of path lists (`FS`); exceptions become explicit error values.
-/

namespace Typhon

/-- Filesystem abstraction backing the path checks of qcp/tasks.py: `files` and
`dirs` hold the existing regular-file and directory paths.  Paths are kept as
plain strings; `Path(src).as_posix()` is modelled as the identity on the
already-posix path strings used throughout. -/
structure FS where
  files : List String
  dirs : List String
deriving DecidableEq, Repr

def FS.empty : FS := FS.mk [] []

def FS.isFile (fs : FS) (p : String) : Bool := fs.files.contains p

def FS.isDir (fs : FS) (p : String) : Bool := fs.dirs.contains p

def FS.pathExists (fs : FS) (p : String) : Bool := fs.isFile p || fs.isDir p

/-- Result of `shutil.copy`: the destination becomes an existing regular file. -/
def FS.addFile (fs : FS) (p : String) : FS :=
  if fs.files.contains p then fs else FS.mk (p :: fs.files) fs.dirs

/-- Removal of a path (used by `os.unlink` and the source half of `shutil.move`). -/
def FS.removePath (fs : FS) (p : String) : FS :=
  FS.mk (fs.files.filter (fun q => !(q == p))) (fs.dirs.filter (fun q => !(q == p)))

/-- Python exceptions raised by qcp/tasks.py, as explicit error values. -/
inductive PyErr where
  | fileNotFoundError
  | typeError
  | fileExistsError
  | isADirectoryError
  | attributeError
  | notImplementedError
  | valueError
  | keyError
  | conversionError
deriving DecidableEq, Repr

/-- Opaque reference to a converter capability (qcp.converters). -/
structure Converter where
  name : String
deriving DecidableEq, Repr

/-- Instance attribute dictionary of a Task object (its `__dict__`).  A field
holds `none` when the attribute is absent from the dictionary; an attribute
assigned later (such as `oid` after a pop) is then present and participates in
dictionary comparison. -/
structure TaskDict where
  type : Int
  msg : Option String
  validate : Option Bool
  src : Option String
  dst : Option String
  converter : Option Converter
  oid : Option String
deriving DecidableEq, Repr

/-- Dictionary holding only the discriminant field. -/
def TaskDict.base (t : Int) : TaskDict := TaskDict.mk t none none none none none none

/-- Task.__init__ assigns self.type = 0; the fresh instance dictionary holds
only the discriminant. -/
def Task.init : TaskDict := TaskDict.base 0

/-- KillTask.__init__ assigns self.type = -1 and then calls Task.__init__
(super), which overwrites the discriminant with 0; the surviving dictionary is
therefore identical to that of a plain Task. -/
def KillTask.init : TaskDict := { TaskDict.base (-1) with type := 0 }

/-- EchoTask.__init__ runs Task.__init__ (type = 0), stores msg, then assigns
type = 1. -/
def EchoTask.init (msg : String) : TaskDict :=
  { TaskDict.base 1 with msg := some msg }

/-- FileTask.__validate__: FileNotFoundError when src does not exist, TypeError
when it is neither a file nor a directory (unreachable in this filesystem
model, kept for fidelity with the source). -/
def FileTask.doValidate (fs : FS) (src : String) : Except PyErr Unit :=
  if !(fs.pathExists src) then Except.error PyErr.fileNotFoundError
  else if !(fs.isDir src || fs.isFile src) then Except.error PyErr.typeError
  else Except.ok ()

/-- FileTask.__init__(src, validate): records the validate flag and the posix
source path, assigns type = 2, then runs __validate__ when requested. -/
def FileTask.init (fs : FS) (src : String) (validate : Bool) : Except PyErr TaskDict :=
  let d := { TaskDict.base 2 with validate := some validate, src := some src }
  if validate then
    match FileTask.doValidate fs src with
    | Except.error e => Except.error e
    | Except.ok _ => Except.ok d
  else Except.ok d

/-- DeleteTask.__init__(src, validate): FileTask.__init__ followed by
type = 3. -/
def DeleteTask.init (fs : FS) (src : String) (validate : Bool) : Except PyErr TaskDict :=
  match FileTask.init fs src validate with
  | Except.error e => Except.error e
  | Except.ok d => Except.ok { d with type := 3 }

/-- CopyTask.__validate__: the FileTask checks on src, then FileExistsError
when dst exists. -/
def CopyTask.doValidate (fs : FS) (src dst : String) : Except PyErr Unit :=
  match FileTask.doValidate fs src with
  | Except.error e => Except.error e
  | Except.ok _ =>
    if fs.pathExists dst then Except.error PyErr.fileExistsError else Except.ok ()

/-- CopyTask.__init__(src, dst, validate): FileTask.__init__ with
validate=False, then dst, type = 4, the caller's validate flag, and the
combined validation when requested. -/
def CopyTask.init (fs : FS) (src dst : String) (validate : Bool) : Except PyErr TaskDict :=
  match FileTask.init fs src false with
  | Except.error e => Except.error e
  | Except.ok d0 =>
    let d := { d0 with dst := some dst, type := 4, validate := some validate }
    if validate then
      match CopyTask.doValidate fs src dst with
      | Except.error e => Except.error e
      | Except.ok _ => Except.ok d
    else Except.ok d

/-- MoveTask.__init__(src, dst, validate): CopyTask.__init__ followed by
type = 5. -/
def MoveTask.init (fs : FS) (src dst : String) (validate : Bool) : Except PyErr TaskDict :=
  match CopyTask.init fs src dst validate with
  | Except.error e => Except.error e
  | Except.ok d => Except.ok { d with type := 5 }

/-- ConvertTask.__init__(src, dst, converter, validate): CopyTask.__init__
followed by the converter reference and type = 6. -/
def ConvertTask.init (fs : FS) (src dst : String) (conv : Converter) (validate : Bool) :
    Except PyErr TaskDict :=
  match CopyTask.init fs src dst validate with
  | Except.error e => Except.error e
  | Except.ok d => Except.ok { d with converter := some conv, type := 6 }

/-- Dictionary subscript x[key] for a string-valued field: KeyError when the
field is absent. -/
def TaskDict.lookupStr (v : Option String) : Except PyErr String :=
  match v with
  | none => Except.error PyErr.keyError
  | some s => Except.ok s

/-- Task.from_dict(x, validate): dispatch on the discriminant x["type"].
Type 6 raises NotImplementedError, unknown discriminants raise ValueError;
the validate argument (default False at the call sites in pop and peek) is
passed to the variant constructors and overwrites the serialized flag. -/
def Task.from_dict (fs : FS) (x : TaskDict) (validate : Bool) : Except PyErr TaskDict :=
  if x.type = -1 then Except.ok KillTask.init
  else if x.type = 0 then Except.ok Task.init
  else if x.type = 1 then
    match TaskDict.lookupStr x.msg with
    | Except.error e => Except.error e
    | Except.ok m => Except.ok (EchoTask.init m)
  else if x.type = 2 then
    match TaskDict.lookupStr x.src with
    | Except.error e => Except.error e
    | Except.ok s => FileTask.init fs s validate
  else if x.type = 3 then
    match TaskDict.lookupStr x.src with
    | Except.error e => Except.error e
    | Except.ok s => DeleteTask.init fs s validate
  else if x.type = 4 then
    match TaskDict.lookupStr x.src with
    | Except.error e => Except.error e
    | Except.ok s =>
      match TaskDict.lookupStr x.dst with
      | Except.error e => Except.error e
      | Except.ok d => CopyTask.init fs s d validate
  else if x.type = 5 then
    match TaskDict.lookupStr x.src with
    | Except.error e => Except.error e
    | Except.ok s =>
      match TaskDict.lookupStr x.dst with
      | Except.error e => Except.error e
      | Except.ok d => MoveTask.init fs s d validate
  else if x.type = 6 then Except.error PyErr.notImplementedError
  else Except.error PyErr.valueError

/-- Task.__eq__: comparison of the full instance dictionaries.  An oid
assigned after a pop lives in the instance dictionary and therefore takes part
in the comparison. -/
def Task.eqPy (a b : TaskDict) : Bool := decide (a = b)

/-- Spec-side equality predicate, written from the spec wording "structural
over all fields except oid", for comparison against the code's Task.eqPy. -/
def specEqExceptOid (a b : TaskDict) : Bool :=
  decide (a.type = b.type) && decide (a.msg = b.msg) && decide (a.validate = b.validate)
    && decide (a.src = b.src) && decide (a.dst = b.dst) && decide (a.converter = b.converter)

/-- DeleteTask.run: os.unlink(src); FileNotFoundError when absent,
IsADirectoryError when src is a directory. -/
def DeleteTask.run (fs : FS) (src : String) : FS × Option PyErr :=
  if fs.isFile src then (fs.removePath src, none)
  else if fs.isDir src then (fs, some PyErr.isADirectoryError)
  else (fs, some PyErr.fileNotFoundError)

/-- CopyTask.run: self.__validate__() and, only when it passes, shutil.copy;
an exception from validation therefore leaves the filesystem unchanged.
shutil.copy of a directory source raises. -/
def CopyTask.run (fs : FS) (src dst : String) : FS × Option PyErr :=
  match CopyTask.doValidate fs src dst with
  | Except.error e => (fs, some e)
  | Except.ok _ =>
    if fs.isDir src then (fs, some PyErr.isADirectoryError)
    else (fs.addFile dst, none)

/-- MoveTask.run: super().__validate__() (the CopyTask checks) and, only when
it passes, shutil.move of the file or directory. -/
def MoveTask.run (fs : FS) (src dst : String) : FS × Option PyErr :=
  match CopyTask.doValidate fs src dst with
  | Except.error e => (fs, some e)
  | Except.ok _ =>
    if fs.isFile src then ((fs.removePath src).addFile dst, none)
    else (FS.mk (fs.removePath src).files (dst :: (fs.removePath src).dirs), none)

/-- Modelled from the spec: the converter capability (qcp.converters is not
under src/) performs the format transform from source to destination, failing
with ConversionError on failure; success is modelled as producing the
destination file from an existing source. -/
def Converter.run (fs : FS) (src dst : String) : FS × Option PyErr :=
  if fs.pathExists src then (fs.addFile dst, none) else (fs, some PyErr.conversionError)

/-- Dispatch of task.run() on the discriminant: EchoTask prints (no filesystem
effect), DeleteTask unlinks, CopyTask and MoveTask validate then act,
ConvertTask delegates to the converter; Task, KillTask and FileTask define no
run method, so calling run on them raises AttributeError, as does a dictionary
missing the attributes the method reads.  The result pairs the filesystem
after the call with the exception it raised, if any. -/
def TaskDict.runPy (fs : FS) (t : TaskDict) : FS × Option PyErr :=
  if t.type = 1 then (fs, none)
  else if t.type = 3 then
    match t.src with
    | some s => DeleteTask.run fs s
    | none => (fs, some PyErr.attributeError)
  else if t.type = 4 then
    match t.src, t.dst with
    | some s, some d => CopyTask.run fs s d
    | _, _ => (fs, some PyErr.attributeError)
  else if t.type = 5 then
    match t.src, t.dst with
    | some s, some d => MoveTask.run fs s d
    | _, _ => (fs, some PyErr.attributeError)
  else if t.type = 6 then
    match t.converter, t.src, t.dst with
    | some _, some s, some d => Converter.run fs s d
    | _, _, _ => (fs, some PyErr.attributeError)
  else (fs, some PyErr.attributeError)

/-- Persisted task record: one row of the sqlite tasks table together with its
_ROWID_.  The payload column stores the task's attribute dictionary (the json
round-trip json.loads(json.dumps(d)) is the identity on these flat
dictionaries and is modelled as such). -/
structure TaskRecord where
  rowid : Nat
  priority : Option Int
  task : TaskDict
  status : Option Int
  owner : Option Int
deriving DecidableEq, Repr

/-- The tasks table: rows in insertion order, with the next _ROWID_ sqlite
will assign. -/
structure Store where
  rows : List TaskRecord
  nextRowid : Nat
deriving DecidableEq, Repr

def Store.empty : Store := Store.mk [] 1

/-- TaskQueue.put: INSERT INTO tasks (priority, task, status) VALUES
(priority, json.dumps(task.__dict__), 0); owner is left NULL and the default
priority argument is None (a NULL priority). -/
def TaskQueue.put (st : Store) (t : TaskDict) (priority : Option Int) : Store :=
  Store.mk
    (st.rows ++ [TaskRecord.mk st.nextRowid priority t (some 0) none])
    (st.nextRowid + 1)

/-- Ascending sqlite comparison of the priority column: NULL orders before
every integer. -/
def prioLt (a b : Option Int) : Bool :=
  match a, b with
  | none, none => false
  | none, some _ => true
  | some _, none => false
  | some x, some y => decide (x < y)

/-- Dequeue-order comparison of two rows: ORDER BY priority, with ties between
equal priorities resolved by ascending _ROWID_ (sqlite scans the table in
rowid order, and LIMIT 1 keeps the first row of minimal key it encounters). -/
def keyLt (a b : TaskRecord) : Bool :=
  prioLt a.priority b.priority
    || (decide (a.priority = b.priority) && decide (a.rowid < b.rowid))

/-- Accumulator step keeping the row of minimal dequeue key seen so far; on a
tie the earlier row is kept. -/
def chooseMin (acc : Option TaskRecord) (r : TaskRecord) : Option TaskRecord :=
  match acc with
  | none => some r
  | some a => if keyLt r a then some r else some a

/-- SELECT _ROWID_ FROM tasks WHERE status = 0 ORDER BY priority LIMIT 1. -/
def selectPending (st : Store) : Option TaskRecord :=
  (st.rows.filter (fun r => r.status == some 0)).foldl chooseMin none

/-- SELECT * FROM tasks ORDER BY priority LIMIT 1 — note: no status filter. -/
def selectAny (st : Store) : Option TaskRecord :=
  st.rows.foldl chooseMin none

/-- TaskQueue.mark_pending: UPDATE tasks SET status = 0, owner = NULL WHERE
_ROWID_ = oid.  Callers pass the oid as a decimal string; the INTEGER affinity
of _ROWID_ converts it back, so the key is modelled as the rowid itself. -/
def TaskQueue.mark_pending (st : Store) (oid : Nat) : Store :=
  Store.mk
    (st.rows.map (fun r =>
      if r.rowid == oid then { r with status := some 0, owner := none } else r))
    st.nextRowid

/-- TaskQueue.mark_running: UPDATE tasks SET status = 1, owner = owner WHERE
_ROWID_ = oid; the only transition that writes a non-NULL owner. -/
def TaskQueue.mark_running (st : Store) (oid : Nat) (owner : Int) : Store :=
  Store.mk
    (st.rows.map (fun r =>
      if r.rowid == oid then { r with status := some 1, owner := some owner } else r))
    st.nextRowid

/-- TaskQueue.mark_done: UPDATE tasks SET status = 2, owner = NULL WHERE
_ROWID_ = oid. -/
def TaskQueue.mark_done (st : Store) (oid : Nat) : Store :=
  Store.mk
    (st.rows.map (fun r =>
      if r.rowid == oid then { r with status := some 2, owner := none } else r))
    st.nextRowid

/-- TaskQueue.mark_failed: UPDATE tasks SET status = -1, owner = NULL WHERE
_ROWID_ = oid. -/
def TaskQueue.mark_failed (st : Store) (oid : Nat) : Store :=
  Store.mk
    (st.rows.map (fun r =>
      if r.rowid == oid then { r with status := some (-1), owner := none } else r))
    st.nextRowid

/-- Errors raised by store operations. -/
inductive StoreErr where
  /-- IndexError from fetchall()[0] on an empty result set (the spec's
  EmptyQueue failure). -/
  | emptyQueue
  /-- sqlite3.ProgrammingError: the owner re-SELECT in pop passes the oid
  string itself as the parameter sequence, so a multi-character oid binds
  len(oid) parameters against one placeholder. -/
  | programmingError
  /-- AlreadyUnderEvaluationError: the post-claim ownership re-check failed. -/
  | alreadyUnderEvaluation
  /-- Exception propagated out of Task.from_dict while deserializing. -/
  | fromDict (e : PyErr)
deriving DecidableEq, Repr

/-- str(x) for the values read back from sqlite columns: None prints as
"None", an integer as its decimal representation. -/
def pyStr (p : Option Int) : String :=
  match p with
  | none => "None"
  | some i => toString i

/-- TaskQueue.pop: select the candidate _ROWID_ (lowest priority pending row),
mark_running(oid, id(self)) as a separate committed UPDATE, then re-SELECT the
row, raise AlreadyUnderEvaluationError unless the owner read back is the
caller, and finally deserialize the payload with Task.from_dict (validate
defaults to False, so no filesystem access happens) and set task.oid to the
rowid string.  The returned store is the state after the UPDATE commit. -/
def TaskQueue.pop (st : Store) (me : Int) : Except StoreErr TaskDict × Store :=
  match selectPending st with
  | none => (Except.error StoreErr.emptyQueue, st)
  | some r =>
    if (toString r.rowid).length ≠ 1 then
      (Except.error StoreErr.programmingError, TaskQueue.mark_running st r.rowid me)
    else
      match (TaskQueue.mark_running st r.rowid me).rows.find? (fun x => x.rowid == r.rowid) with
      | none =>
        (Except.error StoreErr.emptyQueue, TaskQueue.mark_running st r.rowid me)
      | some row =>
        if row.owner ≠ some me then
          (Except.error StoreErr.alreadyUnderEvaluation, TaskQueue.mark_running st r.rowid me)
        else
          match Task.from_dict FS.empty row.task false with
          | Except.error e =>
            (Except.error (StoreErr.fromDict e), TaskQueue.mark_running st r.rowid me)
          | Except.ok t =>
            (Except.ok { t with oid := some (toString r.rowid) },
              TaskQueue.mark_running st r.rowid me)

/-- TaskQueue.peek (n = 1, the only supported value): SELECT * FROM tasks
ORDER BY priority LIMIT 1 — with no status filter — then deserialize
record[1] with validate=False and set task.oid = str(record[0]).  Because the
table columns are (priority, task, status, owner), record[0] is the priority
column, not the rowid.  No write is issued, so the store is unchanged. -/
def TaskQueue.peek (st : Store) : Except StoreErr TaskDict × Store :=
  match selectAny st with
  | none => (Except.error StoreErr.emptyQueue, st)
  | some r =>
    match Task.from_dict FS.empty r.task false with
    | Except.error e => (Except.error (StoreErr.fromDict e), st)
    | Except.ok t => (Except.ok { t with oid := some (pyStr r.priority) }, st)

/-- SELECT COUNT(1) FROM tasks. -/
def TaskQueue.n_ops (st : Store) : Nat := st.rows.length

/-- SELECT COUNT(1) FROM tasks WHERE status = 0. -/
def TaskQueue.n_pending (st : Store) : Nat :=
  st.rows.countP (fun r => r.status == some 0)

/-- SELECT COUNT(1) FROM tasks WHERE status = 1. -/
def TaskQueue.n_running (st : Store) : Nat :=
  st.rows.countP (fun r => r.status == some 1)

/-- SELECT COUNT(1) FROM tasks WHERE status = 2. -/
def TaskQueue.n_done (st : Store) : Nat :=
  st.rows.countP (fun r => r.status == some 2)

/-- SELECT COUNT(1) FROM tasks WHERE status = -1. -/
def TaskQueue.n_failed (st : Store) : Nat :=
  st.rows.countP (fun r => r.status == some (-1))

/-- Errors raised by TaskQueue.run. -/
inductive RunnerErr where
  /-- ValueError("Queue is empty") when n_ops < 1. -/
  | valueError
  /-- Exception propagated out of pop. -/
  | store (e : StoreErr)
  /-- Exception propagated out of op.run(); TaskQueue.run installs no handler
  around it. -/
  | run (e : PyErr)
deriving DecidableEq, Repr

/-- Key the mark_done call inside TaskQueue.run addresses: op.oid is a decimal
string and the INTEGER affinity of _ROWID_ converts it back; an absent or
non-numeric oid matches no row (no rowid is 0). -/
def oidKey (o : Option String) : Nat :=
  match o with
  | none => 0
  | some s => (s.toNat?).getD 0

/-- TaskQueue.run(n): ValueError when the table is empty; otherwise pop, call
op.run(), and mark the record done.  There is no exception handler: an error
from op.run() propagates to the caller, and neither mark_failed nor any other
transition runs, leaving the popped record as mark_running wrote it. -/
def TaskQueue.run (st : Store) (fs : FS) (me : Int) :
    Except RunnerErr Unit × Store × FS :=
  if st.rows.length < 1 then (Except.error RunnerErr.valueError, st, fs)
  else
    match TaskQueue.pop st me with
    | (Except.error e, st1) => (Except.error (RunnerErr.store e), st1, fs)
    | (Except.ok t, st1) =>
      match TaskDict.runPy fs t with
      | (fs1, some e) => (Except.error (RunnerErr.run e), st1, fs1)
      | (fs1, none) => (Except.ok (), TaskQueue.mark_done st1 (oidKey t.oid), fs1)

deriving instance DecidableEq for Except

/-- Program counter of one claimant executing TaskQueue.pop, decomposed into
its database round-trips: the candidate SELECT, the mark_running UPDATE
(committed on its own), and the owner re-SELECT with the ownership check and
deserialization. -/
inductive PC where
  | start
  | selected (oid : Nat)
  | marked (oid : Nat)
  | finished (res : Except StoreErr Nat)
deriving DecidableEq, Repr

/-- One atomic database round-trip of TaskQueue.pop by the claimant with
identity me: exactly the statements of the source, in order; the result of a
successful claim is recorded as the rowid of the returned record. -/
def claimStep (me : Int) (st : Store) (pc : PC) : Store × PC :=
  match pc with
  | PC.start =>
    match selectPending st with
    | none => (st, PC.finished (Except.error StoreErr.emptyQueue))
    | some r => (st, PC.selected r.rowid)
  | PC.selected oid => (TaskQueue.mark_running st oid me, PC.marked oid)
  | PC.marked oid =>
    if (toString oid).length ≠ 1 then
      (st, PC.finished (Except.error StoreErr.programmingError))
    else
      match st.rows.find? (fun x => x.rowid == oid) with
      | none => (st, PC.finished (Except.error StoreErr.emptyQueue))
      | some row =>
        if row.owner ≠ some me then
          (st, PC.finished (Except.error StoreErr.alreadyUnderEvaluation))
        else
          match Task.from_dict FS.empty row.task false with
          | Except.error e => (st, PC.finished (Except.error (StoreErr.fromDict e)))
          | Except.ok _ => (st, PC.finished (Except.ok oid))
  | PC.finished r => (st, PC.finished r)

/-- Shared store together with the program counters of two concurrent
claimants A and B. -/
structure Sys where
  store : Store
  pcA : PC
  pcB : PC
deriving DecidableEq, Repr

/-- One interleaving step: the scheduled claimant (true for A, false for B)
performs its next database round-trip. -/
def sysStep (idA idB : Int) (s : Sys) (who : Bool) : Sys :=
  if who then
    let p := claimStep idA s.store s.pcA
    Sys.mk p.1 p.2 s.pcB
  else
    let p := claimStep idB s.store s.pcB
    Sys.mk p.1 s.pcA p.2

/-- Run a whole schedule of interleaved claim steps. -/
def runSched (idA idB : Int) (sched : List Bool) (s : Sys) : Sys :=
  sched.foldl (sysStep idA idB) s

/-- Stores reachable from an empty table by the queue operations. -/
inductive Reachable : Store → Prop where
  | empty : Reachable Store.empty
  | put (st : Store) (t : TaskDict) (p : Option Int) :
      Reachable st → Reachable (TaskQueue.put st t p)
  | pop (st : Store) (me : Int) :
      Reachable st → Reachable (TaskQueue.pop st me).2
  | markPending (st : Store) (oid : Nat) :
      Reachable st → Reachable (TaskQueue.mark_pending st oid)
  | markRunning (st : Store) (oid : Nat) (w : Int) :
      Reachable st → Reachable (TaskQueue.mark_running st oid w)
  | markDone (st : Store) (oid : Nat) :
      Reachable st → Reachable (TaskQueue.mark_done st oid)
  | markFailed (st : Store) (oid : Nat) :
      Reachable st → Reachable (TaskQueue.mark_failed st oid)

/-- Every status column value is one of the four codes -1, 0, 1, 2. -/
def statusOK (st : Store) : Prop :=
  ∀ r ∈ st.rows,
    r.status = some (-1) ∨ r.status = some 0 ∨ r.status = some 1 ∨ r.status = some 2

/-- Concrete tasks and stores used by the closed theorems below. -/
def echoA : TaskDict := EchoTask.init "a"

def echoB : TaskDict := EchoTask.init "b"

/-- Two pending echo tasks enqueued at priorities 2 then 1. -/
def stW1 : Store :=
  TaskQueue.put (TaskQueue.put Store.empty echoA (some 2)) echoB (some 1)

def recW1 : TaskRecord := TaskRecord.mk 1 (some 2) echoA (some 0) none

def recW2run : TaskRecord := TaskRecord.mk 2 (some 1) echoB (some 1) (some 5)

/-- stW1 after its first pop by owner 5. -/
def stW1a : Store := Store.mk [recW1, recW2run] 3

def tW1 : TaskDict := { echoB with oid := some "2" }

def tW2 : TaskDict := { echoA with oid := some "1" }

/-- One pending record, two claimants with distinct identities, both at the
start of pop. -/
def stC2 : Store := TaskQueue.put Store.empty (EchoTask.init "x") (some 1)

def sysC2 : Sys := Sys.mk stC2 PC.start PC.start

/-- The racing schedule: A selects, B selects, A marks, A checks, B marks,
B checks. -/
def schedC2 : List Bool := [true, false, true, true, false, false]

/-- A store whose single record is Done: nothing is pending. -/
def stC3 : Store := Store.mk [TaskRecord.mk 1 none (EchoTask.init "a") (some 2) none] 2

def convC4 : Converter := Converter.mk "c"

/-- Serialized dictionary of ConvertTask("a", "b", c, validate=False). -/
def convDictC4 : TaskDict :=
  TaskDict.mk 6 none (some false) (some "a") (some "b") (some convC4) none

/-- Serialized dictionary of a FileTask built with validate=True. -/
def fileDictC4 : TaskDict := TaskDict.mk 2 none (some true) (some "s") none none none

def fsC4 : FS := FS.mk ["s"] []

def d3W : TaskDict := TaskDict.mk 3 none (some true) (some "s") none none none

def d4W : TaskDict := TaskDict.mk 4 none (some true) (some "s") (some "t") none none

def d5W : TaskDict := TaskDict.mk 5 none (some true) (some "s") (some "t") none none

/-- Serialized dictionary of CopyTask("s", "d", validate=False). -/
def copyDictC5 : TaskDict := TaskDict.mk 4 none (some false) (some "s") (some "d") none none

def stC5 : Store := TaskQueue.put Store.empty copyDictC5 none

/-- Filesystem in which both the source and the destination of copyDictC5
exist, so its run raises FileExistsError. -/
def fsC5 : FS := FS.mk ["s", "d"] []

def tC5 : TaskDict := { copyDictC5 with oid := some "1" }

def stC5a : Store := Store.mk [TaskRecord.mk 1 none copyDictC5 (some 1) (some 7)] 2

/-- Filesystem in which the destination exists but the source does not. -/
def fsC6cex : FS := FS.mk ["d"] []

def fsC6w : FS := FS.mk ["s", "d"] []

def stC7 : Store := Store.mk [TaskRecord.mk 1 (some 1) (EchoTask.init "a") (some 0) none] 2

def recC7run : TaskRecord := TaskRecord.mk 1 (some 1) (EchoTask.init "a") (some 1) (some 9)

def recC7done : TaskRecord := TaskRecord.mk 1 (some 1) (EchoTask.init "a") (some 2) none

def echoX : TaskDict := EchoTask.init "x"

/-- echoX after an oid has been assigned to the instance. -/
def echoXoid : TaskDict := { EchoTask.init "x" with oid := some "1" }

/-- One pending record with rowid 1 and priority 5. -/
def stC9 : Store := TaskQueue.put Store.empty (EchoTask.init "x") (some 5)

def tC9peek : TaskDict := { EchoTask.init "x" with oid := some "5" }

def stC10 : Store := TaskQueue.put Store.empty (EchoTask.init "a") none

/-
Lemmas about the dequeue-order comparison and the row selections.
-/

theorem keyLt_irrefl (a : TaskRecord) : keyLt a a = false := by
  rcases h : a.priority with _ | x <;> simp [keyLt, prioLt, h]

theorem keyLt_asymm (a b : TaskRecord) (h1 : keyLt a b = true) (h2 : keyLt b a = true) :
    False := by
  rcases ha : a.priority with _ | x <;> rcases hb : b.priority with _ | y <;>
    simp [keyLt, prioLt, ha, hb] at h1 h2 <;> omega

theorem keyLt_co (x y z : TaskRecord) (h : keyLt x z = true) :
    keyLt x y = true ∨ keyLt y z = true := by
  rcases hx : x.priority with _ | a <;> rcases hy : y.priority with _ | b <;>
    rcases hz : z.priority with _ | c <;>
    simp [keyLt, prioLt, hx, hy, hz] at h ⊢ <;> omega

theorem keyLt_total (a b : TaskRecord) (h : a.rowid ≠ b.rowid) :
    keyLt a b = true ∨ keyLt b a = true := by
  rcases ha : a.priority with _ | x <;> rcases hb : b.priority with _ | y <;>
    simp [keyLt, prioLt, ha, hb] <;> omega

theorem foldl_chooseMin_mem (l : List TaskRecord) (acc : Option TaskRecord)
    (r : TaskRecord) (h : l.foldl chooseMin acc = some r) : r ∈ l ∨ acc = some r := by
  induction l generalizing acc with
  | nil => right; simpa using h
  | cons x xs ih =>
    simp only [List.foldl_cons] at h
    rcases ih (chooseMin acc x) h with hmem | heq
    · exact Or.inl (List.mem_cons_of_mem x hmem)
    · cases hacc : acc with
      | none =>
        rw [hacc] at heq
        simp [chooseMin] at heq
        exact Or.inl (heq ▸ List.mem_cons_self x xs)
      | some a =>
        rw [hacc] at heq
        simp only [chooseMin] at heq
        split at heq
        · exact Or.inl ((Option.some.injEq _ _ ▸ heq) ▸ List.mem_cons_self x xs)
        · right; exact heq

theorem foldl_chooseMin_notLt (l : List TaskRecord) (acc : Option TaskRecord)
    (r : TaskRecord) (h : l.foldl chooseMin acc = some r) :
    (∀ x ∈ l, keyLt x r = false) ∧ (∀ a, acc = some a → keyLt a r = false) := by
  induction l generalizing acc with
  | nil =>
    refine ⟨by simp, ?_⟩
    intro a ha
    simp only [List.foldl_nil] at h
    rw [h] at ha
    obtain rfl : r = a := by injection ha
    exact keyLt_irrefl r
  | cons x xs ih =>
    simp only [List.foldl_cons] at h
    obtain ⟨ihl, ihacc⟩ := ih (chooseMin acc x) h
    have hx : keyLt x r = false := by
      cases hacc : acc with
      | none => exact ihacc x (by simp [chooseMin, hacc])
      | some a =>
        by_cases hk : keyLt x a = true
        · exact ihacc x (by simp [chooseMin, hacc, hk])
        · have hxa : keyLt x a = false := by
            cases hv : keyLt x a
            · rfl
            · exact absurd hv hk
          have har : keyLt a r = false :=
            ihacc a (by simp [chooseMin, hacc, hxa])
          cases hv : keyLt x r
          · rfl
          · rcases keyLt_co x a r hv with hc | hc
            · rw [hc] at hxa; cases hxa
            · rw [hc] at har; cases har
    refine ⟨?_, ?_⟩
    · intro y hy
      rcases List.mem_cons.1 hy with rfl | hy
      · exact hx
      · exact ihl y hy
    · intro a ha
      by_cases hk : keyLt x a = true
      · have hxr : keyLt x r = false := ihacc x (by simp [chooseMin, ha, hk])
        cases hv : keyLt a r
        · rfl
        · rcases keyLt_co a x r hv with hc | hc
          · exact absurd (keyLt_asymm x a hk hc) id
          · rw [hc] at hxr; cases hxr
      · have hxa : keyLt x a = false := by
          cases hv : keyLt x a
          · rfl
          · exact absurd hv hk
        exact ihacc a (by simp [chooseMin, ha, hxa])

theorem selectPending_mem (st : Store) (r : TaskRecord) (h : selectPending st = some r) :
    r ∈ st.rows ∧ r.status = some 0 := by
  unfold selectPending at h
  rcases foldl_chooseMin_mem _ none r h with hmem | hnone
  · have := List.mem_filter.1 hmem
    exact ⟨this.1, by simpa using this.2⟩
  · cases hnone

theorem selectPending_min (st : Store) (r : TaskRecord) (h : selectPending st = some r) :
    ∀ x ∈ st.rows, x.status = some 0 → keyLt x r = false := by
  intro x hx hs
  unfold selectPending at h
  exact (foldl_chooseMin_notLt _ none r h).1 x
    (List.mem_filter.2 ⟨hx, by simp [hs]⟩)

theorem selectPending_eq_none (st : Store) (h : ∀ x ∈ st.rows, x.status ≠ some 0) :
    selectPending st = none := by
  unfold selectPending
  have hf : st.rows.filter (fun r => r.status == some 0) = [] := by
    rw [List.filter_eq_nil_iff]
    intro a ha
    simpa using h a ha
  rw [hf]
  rfl

theorem selectAny_mem (st : Store) (r : TaskRecord) (h : selectAny st = some r) :
    r ∈ st.rows := by
  unfold selectAny at h
  rcases foldl_chooseMin_mem _ none r h with hmem | hnone
  · exact hmem
  · cases hnone

theorem selectAny_min (st : Store) (r : TaskRecord) (h : selectAny st = some r) :
    ∀ x ∈ st.rows, keyLt x r = false := by
  unfold selectAny at h
  exact (foldl_chooseMin_notLt _ none r h).1

/-
Lemmas about pop and the mark transitions.
-/

theorem mark_running_rows (st : Store) (oid : Nat) (w : Int) :
    (TaskQueue.mark_running st oid w).rows = st.rows.map (fun r =>
      if r.rowid == oid then { r with status := some 1, owner := some w } else r) := rfl

theorem pop_ok_elim (st : Store) (me : Int) (t : TaskDict) (st' : Store)
    (h : TaskQueue.pop st me = (Except.ok t, st')) :
    ∃ r, selectPending st = some r ∧ st' = TaskQueue.mark_running st r.rowid me
      ∧ t.oid = some (toString r.rowid) := by
  unfold TaskQueue.pop at h
  cases hsel : selectPending st with
  | none => rw [hsel] at h; simp at h
  | some r =>
    rw [hsel] at h
    dsimp only at h
    refine ⟨r, rfl, ?_⟩
    by_cases hl : (toString r.rowid).length ≠ 1
    · rw [if_pos hl] at h; simp at h
    · rw [if_neg hl] at h
      cases hf : (TaskQueue.mark_running st r.rowid me).rows.find?
          (fun x => x.rowid == r.rowid) with
      | none => rw [hf] at h; simp at h
      | some row =>
        rw [hf] at h
        dsimp only at h
        by_cases ho : row.owner ≠ some me
        · rw [if_pos ho] at h; simp at h
        · rw [if_neg ho] at h
          cases hd : Task.from_dict FS.empty row.task false with
          | error e => rw [hd] at h; simp at h
          | ok t0 =>
            rw [hd] at h
            dsimp only at h
            injection h with ht hst
            injection ht with ht
            exact ⟨hst.symm, by rw [← ht]⟩

theorem pop_snd_cases (st : Store) (me : Int) :
    (TaskQueue.pop st me).2 = st
      ∨ ∃ k, (TaskQueue.pop st me).2 = TaskQueue.mark_running st k me := by
  unfold TaskQueue.pop
  cases hsel : selectPending st with
  | none => left; rfl
  | some r =>
    right
    refine ⟨r.rowid, ?_⟩
    dsimp only
    by_cases hl : (toString r.rowid).length ≠ 1
    · rw [if_pos hl]
    · rw [if_neg hl]
      cases hf : (TaskQueue.mark_running st r.rowid me).rows.find?
          (fun x => x.rowid == r.rowid) with
      | none => rfl
      | some row =>
        dsimp only
        by_cases ho : row.owner ≠ some me
        · rw [if_pos ho]
        · rw [if_neg ho]
          cases hd : Task.from_dict FS.empty row.task false <;> rfl

theorem pending_after_mark_running (st : Store) (k : Nat) (w : Int) (x : TaskRecord)
    (hx : x ∈ (TaskQueue.mark_running st k w).rows) (hp : x.status = some 0) :
    x ∈ st.rows ∧ x.rowid ≠ k := by
  rw [mark_running_rows] at hx
  obtain ⟨y, hy, hxy⟩ := List.mem_map.1 hx
  by_cases hk : (y.rowid == k) = true
  · rw [if_pos hk] at hxy
    rw [← hxy] at hp
    simp at hp
  · rw [if_neg hk] at hxy
    subst hxy
    exact ⟨hy, by simpa using hk⟩

/-- Claim C3: on a store with no Pending record, pop raises the EmptyQueue
store error (the IndexError from an empty candidate SELECT) and returns before
issuing any write, leaving the store unchanged. -/
theorem pop_empty_queue (st : Store) (me : Int)
    (h : ∀ r ∈ st.rows, r.status ≠ some 0) :
    TaskQueue.pop st me = (Except.error StoreErr.emptyQueue, st) := by
  unfold TaskQueue.pop
  rw [selectPending_eq_none st h]

/-- Witness for pop_empty_queue at the concrete store stC3, whose only record
is Done. -/
theorem pop_empty_queue_witness :
    TaskQueue.pop stC3 3 = (Except.error StoreErr.emptyQueue, stC3) :=
  pop_empty_queue stC3 3 (by decide)

/-- Claim C7: mark_pending, mark_done and mark_failed set the addressed
record's status to Pending (0), Done (2) and Failed (-1) and clear its owner
to NULL; mark_running is the only transition that writes an owner, setting
status Running (1) together with the given owner; records with a different
rowid are left exactly as they were, in every starting store. -/
theorem mark_transitions_status_owner (st : Store) (oid : Nat) (w : Int) (r : TaskRecord) :
    (r ∈ (TaskQueue.mark_pending st oid).rows →
      (r.rowid = oid → r.status = some 0 ∧ r.owner = none) ∧ (r.rowid ≠ oid → r ∈ st.rows))
    ∧ (r ∈ (TaskQueue.mark_running st oid w).rows →
      (r.rowid = oid → r.status = some 1 ∧ r.owner = some w) ∧ (r.rowid ≠ oid → r ∈ st.rows))
    ∧ (r ∈ (TaskQueue.mark_done st oid).rows →
      (r.rowid = oid → r.status = some 2 ∧ r.owner = none) ∧ (r.rowid ≠ oid → r ∈ st.rows))
    ∧ (r ∈ (TaskQueue.mark_failed st oid).rows →
      (r.rowid = oid → r.status = some (-1) ∧ r.owner = none) ∧ (r.rowid ≠ oid → r ∈ st.rows)) := by
  refine ⟨?_, ?_, ?_, ?_⟩ <;>
  · intro hr
    simp only [TaskQueue.mark_pending, TaskQueue.mark_running, TaskQueue.mark_done,
      TaskQueue.mark_failed] at hr
    obtain ⟨y, hy, hxy⟩ := List.mem_map.1 hr
    by_cases hk : (y.rowid == oid) = true
    · rw [if_pos hk] at hxy
      subst hxy
      have hyk : y.rowid = oid := by simpa using hk
      exact ⟨fun _ => ⟨rfl, rfl⟩, fun hne => absurd hyk hne⟩
    · rw [if_neg hk] at hxy
      subst hxy
      exact ⟨fun hk2 => absurd hk2 (by simpa using hk), fun _ => hy⟩

/-- Witness for mark_transitions_status_owner: on the one-record store stC7,
mark_running writes status 1 and owner 9, and mark_done writes status 2 and
clears the owner. -/
theorem mark_transitions_witness :
    (recC7run.status = some 1 ∧ recC7run.owner = some 9)
    ∧ (recC7done.status = some 2 ∧ recC7done.owner = none) := by
  have h1 := (mark_transitions_status_owner stC7 1 9 recC7run).2.1
  have h2 := (mark_transitions_status_owner stC7 1 9 recC7done).2.2.1
  exact ⟨(h1 (by decide)).1 (by decide), (h2 (by decide)).1 (by decide)⟩

/-- Claim C1: two successive successful pops return records in strictly
ascending dequeue order: the first record's (priority, rowid) key is
lexicographically below the second's — ascending priority, with equal
priorities resolved by ascending row identity (insertion order).  Both
returned oids are row identities of records that were Pending in the first
store. -/
theorem pop_priority_fifo (st st1 st2 : Store) (a b : Int) (t1 t2 : TaskDict)
    (h1 : TaskQueue.pop st a = (Except.ok t1, st1))
    (h2 : TaskQueue.pop st1 b = (Except.ok t2, st2)) :
    ∃ r1 r2, r1 ∈ st.rows ∧ r2 ∈ st.rows
      ∧ r1.status = some 0 ∧ r2.status = some 0
      ∧ t1.oid = some (toString r1.rowid) ∧ t2.oid = some (toString r2.rowid)
      ∧ keyLt r1 r2 = true := by
  obtain ⟨r1, hsel1, hst1, hoid1⟩ := pop_ok_elim st a t1 st1 h1
  obtain ⟨r2, hsel2, _, hoid2⟩ := pop_ok_elim st1 b t2 st2 h2
  obtain ⟨hr1mem, hr1p⟩ := selectPending_mem st r1 hsel1
  obtain ⟨hr2mem1, hr2p⟩ := selectPending_mem st1 r2 hsel2
  rw [hst1] at hr2mem1
  obtain ⟨hr2mem, hr2ne⟩ := pending_after_mark_running st r1.rowid a r2 hr2mem1 hr2p
  have hnotlt : keyLt r2 r1 = false := selectPending_min st r1 hsel1 r2 hr2mem hr2p
  have htot := keyLt_total r1 r2 (fun hc => hr2ne (hc ▸ rfl))
  rcases htot with hlt | hlt
  · exact ⟨r1, r2, hr1mem, hr2mem, hr1p, hr2p, hoid1, hoid2, hlt⟩
  · rw [hlt] at hnotlt; cases hnotlt

/-- Witness for pop_priority_fifo: on stW1 (priorities 2 then 1), the first
pop returns the rowid-2 record (priority 1) and the second the rowid-1 record
(priority 2), in ascending key order. -/
theorem pop_priority_fifo_witness :
    ∃ r1 r2, r1 ∈ stW1.rows ∧ r2 ∈ stW1.rows
      ∧ r1.status = some 0 ∧ r2.status = some 0
      ∧ tW1.oid = some (toString r1.rowid) ∧ tW2.oid = some (toString r2.rowid)
      ∧ keyLt r1 r2 = true :=
  pop_priority_fifo stW1 stW1a
    (TaskQueue.pop stW1a 5).2 5 5 tW1 tW2 (by decide) (by decide)

/-
Status invariant machinery for the reachability claim.
-/

theorem statusOK_put (st : Store) (t : TaskDict) (p : Option Int) (h : statusOK st) :
    statusOK (TaskQueue.put st t p) := by
  intro r hr
  simp only [TaskQueue.put] at hr
  rcases List.mem_append.1 hr with hr | hr
  · exact h r hr
  · simp at hr
    subst hr
    simp

theorem statusOK_mark_pending (st : Store) (oid : Nat) (h : statusOK st) :
    statusOK (TaskQueue.mark_pending st oid) := by
  intro r hr
  simp only [TaskQueue.mark_pending] at hr
  obtain ⟨y, hy, hxy⟩ := List.mem_map.1 hr
  by_cases hk : (y.rowid == oid) = true
  · rw [if_pos hk] at hxy; subst hxy; simp
  · rw [if_neg hk] at hxy; subst hxy; exact h y hy

theorem statusOK_mark_running (st : Store) (oid : Nat) (w : Int) (h : statusOK st) :
    statusOK (TaskQueue.mark_running st oid w) := by
  intro r hr
  simp only [TaskQueue.mark_running] at hr
  obtain ⟨y, hy, hxy⟩ := List.mem_map.1 hr
  by_cases hk : (y.rowid == oid) = true
  · rw [if_pos hk] at hxy; subst hxy; simp
  · rw [if_neg hk] at hxy; subst hxy; exact h y hy

theorem statusOK_mark_done (st : Store) (oid : Nat) (h : statusOK st) :
    statusOK (TaskQueue.mark_done st oid) := by
  intro r hr
  simp only [TaskQueue.mark_done] at hr
  obtain ⟨y, hy, hxy⟩ := List.mem_map.1 hr
  by_cases hk : (y.rowid == oid) = true
  · rw [if_pos hk] at hxy; subst hxy; simp
  · rw [if_neg hk] at hxy; subst hxy; exact h y hy

theorem statusOK_mark_failed (st : Store) (oid : Nat) (h : statusOK st) :
    statusOK (TaskQueue.mark_failed st oid) := by
  intro r hr
  simp only [TaskQueue.mark_failed] at hr
  obtain ⟨y, hy, hxy⟩ := List.mem_map.1 hr
  by_cases hk : (y.rowid == oid) = true
  · rw [if_pos hk] at hxy; subst hxy; simp
  · rw [if_neg hk] at hxy; subst hxy; exact h y hy

theorem countP_partition (l : List TaskRecord)
    (h : ∀ r ∈ l,
      r.status = some (-1) ∨ r.status = some 0 ∨ r.status = some 1 ∨ r.status = some 2) :
    l.countP (fun r => r.status == some 0) + l.countP (fun r => r.status == some 1)
      + l.countP (fun r => r.status == some 2) + l.countP (fun r => r.status == some (-1))
    = l.length := by
  induction l with
  | nil => rfl
  | cons r l ih =>
    have hr := h r (List.mem_cons_self r l)
    have ih2 := ih (fun x hx => h x (List.mem_cons_of_mem r hx))
    rcases hr with hr | hr | hr | hr <;>
      simp [List.countP_cons, hr] <;> omega

/-- Claim C10: in every store reachable from the empty store by put, pop and
the four mark transitions, every record's status is one of -1, 0, 1, 2, and
the four status counts partition the store: n_pending + n_running + n_done +
n_failed equals the total record count. -/
theorem reachable_status_partition (st : Store) (h : Reachable st) :
    statusOK st
    ∧ TaskQueue.n_pending st + TaskQueue.n_running st + TaskQueue.n_done st
        + TaskQueue.n_failed st = TaskQueue.n_ops st := by
  have hs : statusOK st := by
    induction h with
    | empty => intro r hr; simp [Store.empty] at hr
    | put st t p _ ih => exact statusOK_put st t p ih
    | pop st me _ ih =>
      rcases pop_snd_cases st me with hc | ⟨k, hc⟩
      · rw [hc]; exact ih
      · rw [hc]; exact statusOK_mark_running st k me ih
    | markPending st oid _ ih => exact statusOK_mark_pending st oid ih
    | markRunning st oid w _ ih => exact statusOK_mark_running st oid w ih
    | markDone st oid _ ih => exact statusOK_mark_done st oid ih
    | markFailed st oid _ ih => exact statusOK_mark_failed st oid ih
  exact ⟨hs, countP_partition st.rows hs⟩

/-- Witness for reachable_status_partition at the concrete reachable store
stC10 (a single put on the empty store). -/
theorem reachable_status_partition_witness :
    statusOK stC10
    ∧ TaskQueue.n_pending stC10 + TaskQueue.n_running stC10 + TaskQueue.n_done stC10
        + TaskQueue.n_failed stC10 = TaskQueue.n_ops stC10 :=
  reachable_status_partition stC10
    (Reachable.put Store.empty (EchoTask.init "a") none Reachable.empty)

/-
Claim C2 and the interleaving of two claimants.
-/

/-- Claim C2: pop is not one atomic step, and its post-claim ownership check
does not make it one.  On a store holding a single Pending record, two
claimants with the distinct identities 1 and 2, interleaved as A-select,
B-select, A-mark, A-check, B-mark, B-check, BOTH finish successfully with the
very same record (rowid 1): each one's ownership re-read happens after its own
mark_running and before or after the other's, so each sees itself as owner. -/
theorem pop_interleaving_double_claim :
    (1 : Int) ≠ 2
    ∧ (runSched 1 2 schedC2 sysC2).pcA = PC.finished (Except.ok 1)
    ∧ (runSched 1 2 schedC2 sysC2).pcB = PC.finished (Except.ok 1) := by
  refine ⟨by decide, ?_, ?_⟩ <;> rfl

/-
Claim C8 and task equality.
-/

/-- Claim C8 counterexample: two echo tasks agreeing on every field other than
oid — one fresh, one with an oid assigned after a pop — satisfy the spec's
except-oid structural equality, yet Task.__eq__ (full instance dictionary
comparison) declares them unequal, because an assigned oid is part of the
instance dictionary. -/
theorem task_eq_oid_cex :
    specEqExceptOid echoX echoXoid = true ∧ Task.eqPy echoX echoXoid = false := by
  constructor <;> rfl

/-- Claim C8 as amended: Task.__eq__ is structural equality over the full
instance dictionary, so two tasks compare equal exactly when they agree on
every non-oid field AND on the oid entry itself (both absent, or both present
and equal); with differing oid entries, tasks agreeing on all other fields
compare unequal. -/
theorem task_eq_amended (a b : TaskDict) :
    Task.eqPy a b = true ↔ (specEqExceptOid a b = true ∧ a.oid = b.oid) := by
  cases a
  cases b
  simp [Task.eqPy, specEqExceptOid, TaskDict.mk.injEq]
  tauto

/-
Claim C9 and peek.
-/

/-- Claim C9 counterexample: on the store stC9 — one Pending record, rowid 1,
priority 5 — peek returns the task with oid "5" (str of the priority column,
the first column of SELECT *), while pop returns the record with oid "1" (its
row identity): peek does not report the row identity as oid. -/
theorem peek_oid_cex :
    (TaskQueue.peek stC9).1 = Except.ok tC9peek
    ∧ tC9peek.oid = some "5"
    ∧ ((TaskQueue.pop stC9 7).1 = Except.ok { echoX with oid := some "1" })
    ∧ some "5" ≠ some "1" := by
  refine ⟨rfl, rfl, rfl, by decide⟩

/-- Claim C9 as amended: peek issues no write (the store it leaves behind is
the one it was given), and the task it returns is the deserialization of the
lowest-(priority, rowid) record among ALL rows — with no status filter, unlike
pop's candidate selection — carrying str(priority), not the row identity, in
its oid field. -/
theorem peek_characterization_amended (st : Store) (t : TaskDict)
    (h : (TaskQueue.peek st).1 = Except.ok t) :
    (TaskQueue.peek st).2 = st
    ∧ ∃ r ∈ st.rows, (∀ x ∈ st.rows, keyLt x r = false)
        ∧ t.oid = some (pyStr r.priority) := by
  unfold TaskQueue.peek at h ⊢
  cases hsel : selectAny st with
  | none => rw [hsel] at h; simp at h
  | some r =>
    rw [hsel] at h
    dsimp only at h ⊢
    cases hd : Task.from_dict FS.empty r.task false with
    | error e => rw [hd] at h; simp at h
    | ok t0 =>
      rw [hd] at h
      dsimp only at h ⊢
      refine ⟨rfl, r, selectAny_mem st r hsel, selectAny_min st r hsel, ?_⟩
      injection h with h
      rw [← h]

/-- Witness for peek_characterization_amended at the concrete store stC9. -/
theorem peek_characterization_witness :
    (TaskQueue.peek stC9).2 = stC9
    ∧ ∃ r ∈ stC9.rows, (∀ x ∈ stC9.rows, keyLt x r = false)
        ∧ tC9peek.oid = some (pyStr r.priority) :=
  peek_characterization_amended stC9 tC9peek (by decide)

/-
Claim C6 and the pre-run validation of Copy and Move.
-/

theorem doValidate_ok_of_pathExists (fs : FS) (src : String)
    (h : fs.pathExists src = true) : FileTask.doValidate fs src = Except.ok () := by
  have h2 : (fs.isDir src || fs.isFile src) = true := by
    cases hf : fs.isFile src <;> cases hd : fs.isDir src <;> simp_all [FS.pathExists]
  unfold FileTask.doValidate
  rw [h, h2]
  rfl

/-- Claim C6 counterexample: with destination "d" existing but source "s"
missing, both CopyTask.run and MoveTask.run fail with FileNotFoundError — the
source check of __validate__ runs first — not with the FileExistsError
(AlreadyExists) the claim promises for every task whose destination exists. -/
theorem copy_dst_exists_wrong_error_cex :
    fsC6cex.pathExists "d" = true
    ∧ (CopyTask.run fsC6cex "s" "d").2 = some PyErr.fileNotFoundError
    ∧ (MoveTask.run fsC6cex "s" "d").2 = some PyErr.fileNotFoundError
    ∧ some PyErr.fileNotFoundError ≠ some PyErr.fileExistsError := by
  refine ⟨rfl, rfl, rfl, by decide⟩

/-- Claim C6 as amended: when the destination exists at the moment run() is
invoked, CopyTask.run and MoveTask.run re-validate first, fail, and leave the
filesystem exactly as it was — the destination is never overwritten and the
source never touched; the error is AlreadyExists (FileExistsError) whenever
the source precondition also holds, and NotFound when the source is
missing. -/
theorem copy_move_run_existing_dst_amended (fs : FS) (src dst : String)
    (hdst : fs.pathExists dst = true) :
    ((CopyTask.run fs src dst).1 = fs ∧ (CopyTask.run fs src dst).2.isSome = true)
    ∧ ((MoveTask.run fs src dst).1 = fs ∧ (MoveTask.run fs src dst).2.isSome = true)
    ∧ (fs.pathExists src = true →
        (CopyTask.run fs src dst).2 = some PyErr.fileExistsError
        ∧ (MoveTask.run fs src dst).2 = some PyErr.fileExistsError) := by
  cases hv : FileTask.doValidate fs src with
  | error e =>
    have hc : CopyTask.doValidate fs src dst = Except.error e := by
      unfold CopyTask.doValidate
      rw [hv]
    refine ⟨by simp [CopyTask.run, hc], by simp [MoveTask.run, hc], ?_⟩
    intro hsrc
    rw [doValidate_ok_of_pathExists fs src hsrc] at hv
    cases hv
  | ok u =>
    have hc : CopyTask.doValidate fs src dst = Except.error PyErr.fileExistsError := by
      unfold CopyTask.doValidate
      rw [hv]
      dsimp only
      rw [hdst]
      rfl
    exact ⟨by simp [CopyTask.run, hc], by simp [MoveTask.run, hc],
      fun _ => ⟨by simp [CopyTask.run, hc], by simp [MoveTask.run, hc]⟩⟩

/-- Witness for copy_move_run_existing_dst_amended on the filesystem fsC6w in
which both "s" and "d" exist. -/
theorem copy_move_run_existing_dst_witness :
    ((CopyTask.run fsC6w "s" "d").1 = fsC6w ∧ (CopyTask.run fsC6w "s" "d").2.isSome = true)
    ∧ ((MoveTask.run fsC6w "s" "d").1 = fsC6w ∧ (MoveTask.run fsC6w "s" "d").2.isSome = true)
    ∧ (fsC6w.pathExists "s" = true →
        (CopyTask.run fsC6w "s" "d").2 = some PyErr.fileExistsError
        ∧ (MoveTask.run fsC6w "s" "d").2 = some PyErr.fileExistsError) :=
  copy_move_run_existing_dst_amended fsC6w "s" "d" (by decide)

/-
Claim C5 and the Runner's failure handling.
-/

/-- Claim C5 counterexample: on stC5 (one pending CopyTask whose destination
exists in fsC5), TaskQueue.run propagates the FileExistsError raised by
op.run() but leaves the record with status 1 (Running) and the claimant as
owner: mark_failed is never invoked, so the record is not transitioned to
Failed (-1). -/
theorem queue_run_failure_cex :
    (TaskQueue.run stC5 fsC5 7).1 = Except.error (RunnerErr.run PyErr.fileExistsError)
    ∧ ((TaskQueue.run stC5 fsC5 7).2.1.rows.map (fun r => r.status)) = [some 1]
    ∧ ((TaskQueue.run stC5 fsC5 7).2.1.rows.map (fun r => r.status)) ≠ [some (-1)] := by
  refine ⟨rfl, rfl, by decide⟩

/-- Claim C5 as amended: whenever the claimed task's run() raises, TaskQueue.run
re-raises that very error to its caller — nothing is suppressed and the record
is retained — but no markFailed transition happens: the record stays exactly as
mark_running left it, in status Running with the claimant as owner. -/
theorem queue_run_failure_amended (st st1 : Store) (fs fs1 : FS) (me : Int)
    (t : TaskDict) (e : PyErr)
    (hpop : TaskQueue.pop st me = (Except.ok t, st1))
    (hrun : TaskDict.runPy fs t = (fs1, some e)) :
    TaskQueue.run st fs me = (Except.error (RunnerErr.run e), st1, fs1)
    ∧ ∃ r ∈ st1.rows, t.oid = some (toString r.rowid)
        ∧ r.status = some 1 ∧ r.owner = some me := by
  obtain ⟨r, hsel, hst1, hoid⟩ := pop_ok_elim st me t st1 hpop
  have hmem : r ∈ st.rows := (selectPending_mem st r hsel).1
  have hne : st.rows ≠ [] := List.ne_nil_of_mem hmem
  have hpos : 0 < st.rows.length := List.length_pos.mpr hne
  constructor
  · unfold TaskQueue.run
    rw [if_neg (by omega)]
    rw [hpop]
    dsimp only
    rw [hrun]
  · refine ⟨{ r with status := some 1, owner := some me }, ?_, ?_, rfl, rfl⟩
    · rw [hst1, mark_running_rows]
      have hfr := List.mem_map_of_mem
        (fun y => if y.rowid == r.rowid then { y with status := some 1, owner := some me }
          else y) hmem
      simpa using hfr
    · simpa using hoid

/-- Witness for queue_run_failure_amended at the concrete stC5 and fsC5. -/
theorem queue_run_failure_witness :
    TaskQueue.run stC5 fsC5 7 = (Except.error (RunnerErr.run PyErr.fileExistsError), stC5a, fsC5)
    ∧ ∃ r ∈ stC5a.rows, tC5.oid = some (toString r.rowid)
        ∧ r.status = some 1 ∧ r.owner = some 7 :=
  queue_run_failure_amended stC5 stC5a fsC5 fsC5 7 tC5 PyErr.fileExistsError
    (by decide) (by decide)

/-
Claim C4 and the serialization round-trip.
-/

theorem FileTask_init_shape (fs : FS) (src : String) (v : Bool) (d : TaskDict)
    (h : FileTask.init fs src v = Except.ok d) :
    d = TaskDict.mk 2 none (some v) (some src) none none none
    ∧ (v = true → FileTask.doValidate fs src = Except.ok ()) := by
  cases v with
  | false =>
    simp [FileTask.init] at h
    exact ⟨h.symm, by simp⟩
  | true =>
    cases hval : FileTask.doValidate fs src with
    | error e => simp [FileTask.init, hval] at h
    | ok u =>
      simp [FileTask.init, hval] at h
      exact ⟨h.symm, fun _ => rfl⟩

theorem DeleteTask_init_shape (fs : FS) (src : String) (v : Bool) (d : TaskDict)
    (h : DeleteTask.init fs src v = Except.ok d) :
    d = TaskDict.mk 3 none (some v) (some src) none none none
    ∧ (v = true → FileTask.doValidate fs src = Except.ok ()) := by
  unfold DeleteTask.init at h
  cases hfi : FileTask.init fs src v with
  | error e => rw [hfi] at h; cases h
  | ok d0 =>
    rw [hfi] at h
    obtain ⟨hd0, hv⟩ := FileTask_init_shape fs src v d0 hfi
    subst hd0
    injection h with h
    exact ⟨h.symm, hv⟩

theorem CopyTask_init_shape (fs : FS) (src dst : String) (v : Bool) (d : TaskDict)
    (h : CopyTask.init fs src dst v = Except.ok d) :
    d = TaskDict.mk 4 none (some v) (some src) (some dst) none none
    ∧ (v = true → CopyTask.doValidate fs src dst = Except.ok ()) := by
  unfold CopyTask.init at h
  cases hf0 : FileTask.init fs src false with
  | error e => rw [hf0] at h; cases h
  | ok d0 =>
    rw [hf0] at h
    obtain ⟨hd0, _⟩ := FileTask_init_shape fs src false d0 hf0
    subst hd0
    dsimp only at h
    cases v with
    | false =>
      simp at h
      exact ⟨h.symm, by simp⟩
    | true =>
      cases hcv : CopyTask.doValidate fs src dst with
      | error e => simp [hcv] at h
      | ok u =>
        simp [hcv] at h
        exact ⟨h.symm, fun _ => rfl⟩

theorem MoveTask_init_shape (fs : FS) (src dst : String) (v : Bool) (d : TaskDict)
    (h : MoveTask.init fs src dst v = Except.ok d) :
    d = TaskDict.mk 5 none (some v) (some src) (some dst) none none
    ∧ (v = true → CopyTask.doValidate fs src dst = Except.ok ()) := by
  unfold MoveTask.init at h
  cases hci : CopyTask.init fs src dst v with
  | error e => rw [hci] at h; cases h
  | ok d0 =>
    rw [hci] at h
    obtain ⟨hd0, hv⟩ := CopyTask_init_shape fs src dst v d0 hci
    subst hd0
    injection h with h
    exact ⟨h.symm, hv⟩

/-- Claim C4 counterexample: the round-trip fails on the Convert variant and
on the validate flag.  Deserializing the dictionary of
ConvertTask("a","b",c,validate=False) raises NotImplementedError (the type-6
branch of Task.from_dict), so no structurally equal task is reconstructed;
and the dictionary of a FileTask built with validate=True comes back with
validate=False — the factory's own argument, not the serialized field. -/
theorem from_dict_roundtrip_cex :
    ConvertTask.init FS.empty "a" "b" convC4 false = Except.ok convDictC4
    ∧ Task.from_dict FS.empty convDictC4 false = Except.error PyErr.notImplementedError
    ∧ Task.from_dict FS.empty fileDictC4 false
        = Except.ok (TaskDict.mk 2 none (some false) (some "s") none none none)
    ∧ TaskDict.mk 2 none (some false) (some "s") none none none ≠ fileDictC4 := by
  refine ⟨rfl, rfl, rfl, by decide⟩

/-- Claim C4 as amended: for the variants No-op, Kill, Echo, File, Delete,
Copy and Move — but not Convert, whose factory branch raises
NotImplementedError — serializing and re-running the factory with its validate
argument equal to the original's validate flag reconstructs a dictionary equal
to the original in every field including the absent oid; Kill reconstructs as
a No-op Task that is nonetheless structurally equal, because KillTask's own
discriminant is overwritten to 0 during construction. -/
theorem from_dict_roundtrip_amended (fs : FS) (m src dst : String) (v : Bool)
    (d2 d3 d4 d5 : TaskDict)
    (h2 : FileTask.init fs src v = Except.ok d2)
    (h3 : DeleteTask.init fs src v = Except.ok d3)
    (h4 : CopyTask.init fs src dst v = Except.ok d4)
    (h5 : MoveTask.init fs src dst v = Except.ok d5) :
    Task.from_dict fs Task.init v = Except.ok Task.init
    ∧ (Task.from_dict fs KillTask.init v = Except.ok Task.init
        ∧ KillTask.init = Task.init)
    ∧ Task.from_dict fs (EchoTask.init m) v = Except.ok (EchoTask.init m)
    ∧ Task.from_dict fs d2 v = Except.ok d2
    ∧ Task.from_dict fs d3 v = Except.ok d3
    ∧ Task.from_dict fs d4 v = Except.ok d4
    ∧ Task.from_dict fs d5 v = Except.ok d5 := by
  obtain ⟨hs2, _⟩ := FileTask_init_shape fs src v d2 h2
  obtain ⟨hs3, _⟩ := DeleteTask_init_shape fs src v d3 h3
  obtain ⟨hs4, _⟩ := CopyTask_init_shape fs src dst v d4 h4
  obtain ⟨hs5, _⟩ := MoveTask_init_shape fs src dst v d5 h5
  subst hs2 hs3 hs4 hs5
  refine ⟨rfl, ⟨rfl, rfl⟩, rfl, ?_, ?_, ?_, ?_⟩
  · simpa [Task.from_dict, TaskDict.lookupStr] using h2
  · simpa [Task.from_dict, TaskDict.lookupStr] using h3
  · simpa [Task.from_dict, TaskDict.lookupStr] using h4
  · simpa [Task.from_dict, TaskDict.lookupStr] using h5

/-- Witness for from_dict_roundtrip_amended with validate=true on the
filesystem fsC4, in which the source "s" exists and the destination "t" does
not. -/
theorem from_dict_roundtrip_witness :
    Task.from_dict fsC4 Task.init true = Except.ok Task.init
    ∧ (Task.from_dict fsC4 KillTask.init true = Except.ok Task.init
        ∧ KillTask.init = Task.init)
    ∧ Task.from_dict fsC4 (EchoTask.init "m") true = Except.ok (EchoTask.init "m")
    ∧ Task.from_dict fsC4 fileDictC4 true = Except.ok fileDictC4
    ∧ Task.from_dict fsC4 d3W true = Except.ok d3W
    ∧ Task.from_dict fsC4 d4W true = Except.ok d4W
    ∧ Task.from_dict fsC4 d5W true = Except.ok d5W :=
  from_dict_roundtrip_amended fsC4 "m" "s" "t" true fileDictC4 d3W d4W d5W
    (by decide) (by decide) (by decide) (by decide)

end Typhon
